import Mathlib

/-!
Verification of the Steam integration plugin's protocol-client logic.

The definitions below are a shallow embedding of the Python sources:

* `src/steam_network/protocol_client.py` — `translate_error`, `to_UserAction`,
  `ProtocolClient._login_handler` (auth-challenge priority loop),
  `ProtocolClient._relationship_handler`, `ProtocolClient._license_import_handler`.
* `src/plugin.py` — `SteamPlugin.get_unlocked_achievements`.
* `src/steam_network/w3_hack.py` — `does_witcher_3_dlcs_set_resolve_to_GOTY`.
* `src/user_profile.py` — `UserProfileChecker`.

Python exceptions are modelled with `Except`/explicit outcome records; the
`assert` statements are modelled as a dedicated failure value.  Cache classes
whose module is not part of the analysed sources (`games_cache.py`,
`friends_cache.py`, `cache.py`, `achievements_cache.py`) are modelled from the
specification, as marked in their doc comments.
-/

set_option autoImplicit false

namespace Steam

/-- Result codes of the backend (`protocol/consts.py`, `EResult`).  The
constructors list every code named in the analysed sources; `other n` stands
for any further numeric code. -/
inductive EResult where
  | OK
  | InvalidPassword
  | AccountNotFound
  | InvalidSteamID
  | InvalidLoginAuthCode
  | AccountLogonDeniedNoMailSent
  | AccountLoginDeniedNeedTwoFactor
  | TwoFactorCodeMismatch
  | TwoFactorActivationCodeMismatch
  | ConnectFailed
  | IOFailure
  | RemoteDisconnect
  | Busy
  | ServiceUnavailable
  | Pending
  | IPNotFound
  | TryAnotherCM
  | Cancelled
  | Timeout
  | RateLimitExceeded
  | LimitExceeded
  | Suspended
  | AccountLocked
  | AccountLogonDeniedVerifiedEmailRequired
  | Banned
  | AccessDenied
  | InsufficientPrivilege
  | LogonSessionReplaced
  | Blocked
  | Ignored
  | AccountDisabled
  | AccountNotFeatured
  | DataCorruption
  | DiskFull
  | RemoteCallFailed
  | RemoteFileConflict
  | BadResponse
  | AccountLogonDenied
  | other (n : Nat)
deriving DecidableEq, Repr

/-- The error taxonomy of `galaxy.api.errors` used by `translate_error`. -/
inductive ErrorKind where
  | InvalidCredentials
  | NetworkError
  | BackendNotAvailable
  | BackendTimeout
  | TemporaryBlocked
  | Banned
  | AccessDenied
  | BackendError
  | UnknownError
deriving DecidableEq, Repr

/-- A raised galaxy error: the kind together with the `data = {"result": result}`
payload the Python code attaches. -/
abbrev GalaxyError := ErrorKind × EResult

/-- `translate_error` from `src/steam_network/protocol_client.py` (identical in
`src/protocol/protocol_client.py`).  `Except.error ()` models the failing
`assert result != EResult.OK`; `Except.ok` is the returned error object. -/
def translate_error (result : EResult) : Except Unit GalaxyError :=
  if result = .OK then .error ()
  else if result ∈ [EResult.InvalidPassword, .AccountNotFound, .InvalidSteamID,
      .InvalidLoginAuthCode, .AccountLogonDeniedNoMailSent,
      .AccountLoginDeniedNeedTwoFactor, .TwoFactorCodeMismatch,
      .TwoFactorActivationCodeMismatch] then
    .ok (.InvalidCredentials, result)
  else if result ∈ [EResult.ConnectFailed, .IOFailure, .RemoteDisconnect] then
    .ok (.NetworkError, result)
  else if result ∈ [EResult.Busy, .ServiceUnavailable, .Pending, .IPNotFound,
      .TryAnotherCM, .Cancelled] then
    .ok (.BackendNotAvailable, result)
  else if result = .Timeout then
    .ok (.BackendTimeout, result)
  else if result ∈ [EResult.RateLimitExceeded, .LimitExceeded, .Suspended,
      .AccountLocked, .AccountLogonDeniedVerifiedEmailRequired] then
    .ok (.TemporaryBlocked, result)
  else if result = .Banned then
    .ok (.Banned, result)
  else if result ∈ [EResult.AccessDenied, .InsufficientPrivilege,
      .LogonSessionReplaced, .Blocked, .Ignored, .AccountDisabled,
      .AccountNotFeatured] then
    .ok (.AccessDenied, result)
  else if result ∈ [EResult.DataCorruption, .DiskFull, .RemoteCallFailed,
      .RemoteFileConflict, .BadResponse] then
    .ok (.BackendError, result)
  else
    .ok (.UnknownError, result)

/-- `does_witcher_3_dlcs_set_resolve_to_GOTY` from
`src/steam_network/w3_hack.py`: the expansion pass is owned, or no GOTY
component is missing from the owned set. -/
def does_witcher_3_dlcs_set_resolve_to_GOTY (owned_dlc_app_ids : Finset String) : Bool :=
  let W3_EXPANSION_PASS : String := "355880"
  let W3_DLCS_GOTY_COMPONENTS : Finset String := {"378648", "378649"}
  W3_EXPANSION_PASS ∈ owned_dlc_app_ids
    ∨ (W3_DLCS_GOTY_COMPONENTS \ owned_dlc_app_ids).card = 0

/-- C2: for every result code other than `OK`, `translate_error` returns
exactly one error kind of the taxonomy without raising; any code outside the
explicitly listed sets (including `other n`) maps to `UnknownError`; calling it
with `OK` fails the assertion. -/
theorem translate_error_total :
    (∀ result : EResult, result ≠ .OK →
      ∃ kind : ErrorKind, translate_error result = .ok (kind, result)) ∧
    translate_error .OK = .error () ∧
    (∀ n : Nat, translate_error (.other n) = .ok (.UnknownError, .other n)) ∧
    translate_error .AccountLogonDenied = .ok (.UnknownError, .AccountLogonDenied) := by
  refine ⟨fun result h => ?_, rfl, fun n => rfl, rfl⟩
  unfold translate_error
  rw [if_neg h]
  split_ifs <;> exact ⟨_, rfl⟩

/-- Witness for C2 at the concrete code `Timeout`. -/
theorem translate_error_total_witness :
    EResult.Timeout ≠ EResult.OK ∧
    ∃ kind : ErrorKind, translate_error .Timeout = .ok (kind, .Timeout) :=
  ⟨by decide, translate_error_total.1 .Timeout (by decide)⟩

/-- C9: the Witcher 3 GOTY resolution predicate holds exactly when the
expansion pass `"355880"` is owned or both GOTY components `"378648"` and
`"378649"` are owned. -/
theorem w3_goty_resolution (owned : Finset String) :
    does_witcher_3_dlcs_set_resolve_to_GOTY owned = true ↔
      ("355880" ∈ owned ∨ ("378648" ∈ owned ∧ "378649" ∈ owned)) := by
  simp only [does_witcher_3_dlcs_set_resolve_to_GOTY, decide_eq_true_eq,
    Finset.card_eq_zero, Finset.sdiff_eq_empty_iff_subset, Finset.insert_subset_iff,
    Finset.singleton_subset_iff]

/-! ### Achievement cache and `get_unlocked_achievements` -/

/-- An unlocked achievement as built in `SteamPlugin._get_achievements`. -/
structure Achievement where
  unlock_time : Nat
  name : String
deriving DecidableEq, Repr

/-- Modelled from the spec: `achievements_cache.Fingerprint` lives in
`achievements_cache.py`, which is absent from the analysed sources.  Per the
spec it is the pair (last-played timestamp, total minutes played), built in
`get_unlocked_achievements` as
`Fingerprint(game_time.last_played_time, game_time.time_played)`. -/
structure Fingerprint where
  last_played_time : Option Nat
  time_played : Nat
deriving DecidableEq, Repr

/-- A `galaxy.api.types.GameTime` record: (game id, minutes played,
last-played timestamp or none). -/
structure GameTime where
  game_id : String
  time_played : Nat
  last_played_time : Option Nat
deriving DecidableEq, Repr

/-- Modelled from the spec: the achievement `Cache` class lives in `cache.py`,
which is absent from the analysed sources.  Per the spec it maps each game to
its stored fingerprint and unlock list (one entry per game). -/
structure Cache where
  entries : List (String × Fingerprint × List Achievement)
deriving DecidableEq, Repr

/-- Modelled from the spec: `Cache.get(game_id, fingerprint)` returns the
cached unlock list only if the stored fingerprint for that game exactly equals
the supplied fingerprint; otherwise it is a miss (`none`). -/
def Cache.get (c : Cache) (game_id : String) (fingerprint : Fingerprint) :
    Option (List Achievement) :=
  match c.entries.find? (fun e => e.1 = game_id) with
  | some (_, fp, achievements) =>
    if fp = fingerprint then some achievements else none
  | none => none

/-- Modelled from the spec: `Cache.update(game_id, achievements, fingerprint)`
overwrites the stored entry for that game unconditionally. -/
def Cache.update (c : Cache) (game_id : String) (achievements : List Achievement)
    (fingerprint : Fingerprint) : Cache :=
  ⟨(game_id, fingerprint, achievements) :: c.entries.filter (fun e => ¬ e.1 = game_id)⟩

/-- Outcome of one `get_unlocked_achievements` call: the returned list, the
cache afterwards, whether the cache was consulted, and whether the network
fetch path (`_get_achievements`) ran.  `none` models the `AttributeError`
raised when the game is missing from the context (`context.get` is `None`). -/
structure UnlockOutcome where
  achievements : List Achievement
  cache : Cache
  consultedCache : Bool
  fetchedBackend : Bool
deriving DecidableEq, Repr

/-- `SteamPlugin.get_unlocked_achievements` from `src/plugin.py`.  `context`
is the dictionary built by `_get_game_times_dict`; `backend` is the list the
network fetch `_get_achievements(game_id)` would return. -/
def get_unlocked_achievements (cache : Cache) (context : List (String × GameTime))
    (backend : List Achievement) (game_id : String) : Option UnlockOutcome :=
  match (context.find? (fun e => e.1 = game_id)).map Prod.snd with
  | none => none
  | some game_time =>
    if game_time.time_played = 0 then
      some ⟨[], cache, false, false⟩
    else
      let fingerprint : Fingerprint :=
        ⟨game_time.last_played_time, game_time.time_played⟩
      match cache.get game_id fingerprint with
      | some achievements => some ⟨achievements, cache, true, false⟩
      | none =>
        some ⟨backend, cache.update game_id backend fingerprint, true, true⟩

/-- C6: a game with recorded zero playtime in the prepared context yields the
empty achievement list, without consulting the cache and without invoking the
network fetch path (and the cache is left untouched). -/
theorem zero_playtime_no_fetch (cache : Cache) (context : List (String × GameTime))
    (backend : List Achievement) (game_id : String) (game_time : GameTime)
    (hctx : (context.find? (fun e => e.1 = game_id)).map Prod.snd = some game_time)
    (hzero : game_time.time_played = 0) :
    get_unlocked_achievements cache context backend game_id =
      some ⟨[], cache, false, false⟩ := by
  unfold get_unlocked_achievements
  rw [hctx]
  simp [hzero]

/-- Witness for C6 on a concrete one-game context with zero playtime. -/
theorem zero_playtime_no_fetch_witness :
    get_unlocked_achievements ⟨[]⟩ [("10", ⟨"10", 0, some 5⟩)] [⟨7, "a"⟩] "10" =
      some ⟨[], ⟨[]⟩, false, false⟩ :=
  zero_playtime_no_fetch ⟨[]⟩ [("10", ⟨"10", 0, some 5⟩)] [⟨7, "a"⟩] "10"
    ⟨"10", 0, some 5⟩ (by decide) rfl

/-- C7: after `update game_id A F`, `get game_id F` returns exactly `A`, and
`get game_id F'` for any `F' ≠ F` is a miss; `update` overwrites the stored
entry unconditionally (the prior cache contents for that game are irrelevant). -/
theorem achievements_cache_get_update (c : Cache) (game_id : String)
    (A : List Achievement) (F F' : Fingerprint) (hne : F' ≠ F) :
    (c.update game_id A F).get game_id F = some A ∧
    (c.update game_id A F).get game_id F' = none := by
  constructor
  · simp [Cache.get, Cache.update, List.find?]
  · simp [Cache.get, Cache.update, List.find?]
    exact fun h => hne h.symm

/-- Witness for C7 at concrete fingerprints that differ. -/
theorem achievements_cache_get_update_witness :
    ((⟨[]⟩ : Cache).update "10" [⟨7, "a"⟩] ⟨some 5, 3⟩).get "10" ⟨some 5, 3⟩ =
        some [⟨7, "a"⟩] ∧
    ((⟨[]⟩ : Cache).update "10" [⟨7, "a"⟩] ⟨some 5, 3⟩).get "10" ⟨some 5, 4⟩ = none :=
  achievements_cache_get_update ⟨[]⟩ "10" [⟨7, "a"⟩] ⟨some 5, 3⟩ ⟨some 5, 4⟩ (by decide)

/-! ### Friends cache and `_relationship_handler` -/

/-- `EFriendRelationship` values the handler inspects; `other n` stands for the
remaining relationship states, which the handler ignores. -/
inductive EFriendRelationship where
  | None_
  | Friend
  | other (n : Nat)
deriving DecidableEq, Repr

/-- Modelled from the spec: `FriendsCache` lives in `friends_cache.py`, which
is absent from the analysed sources.  Per the spec it is a store of the user
ids currently known as friends, with add/remove/reset operations. -/
structure FriendsCache where
  friends : List Nat
deriving DecidableEq, Repr

/-- Modelled from the spec: `FriendsCache.add` inserts a user id (set
semantics: adding a present id changes nothing). -/
def FriendsCache.add (c : FriendsCache) (user_id : Nat) : FriendsCache :=
  if user_id ∈ c.friends then c else ⟨c.friends ++ [user_id]⟩

/-- Modelled from the spec: `FriendsCache.remove` deletes a user id. -/
def FriendsCache.remove (c : FriendsCache) (user_id : Nat) : FriendsCache :=
  ⟨c.friends.filter (fun u => ¬ u = user_id)⟩

/-- Modelled from the spec: `FriendsCache.reset` replaces the whole contents
with the given snapshot. -/
def FriendsCache.reset (initial_friends : List Nat) : FriendsCache :=
  ⟨initial_friends⟩

/-- The `for user_id, relationship in friends.items()` loop of
`ProtocolClient._relationship_handler`.  The accumulator carries the cache and
the `initial_friends` and `new_friends` lists; `Except.error ()` models the
failing `assert incremental` on a `None_` relationship in a non-incremental
update. -/
def relationshipLoop (incremental : Bool) :
    FriendsCache → List Nat → List Nat → List (Nat × EFriendRelationship) →
    Except Unit (FriendsCache × List Nat × List Nat)
  | c, initial_friends, new_friends, [] => .ok (c, initial_friends, new_friends)
  | c, initial_friends, new_friends, (user_id, relationship) :: rest =>
    match relationship with
    | .Friend =>
      if incremental then
        relationshipLoop incremental (c.add user_id) initial_friends
          (new_friends ++ [user_id]) rest
      else
        relationshipLoop incremental c (initial_friends ++ [user_id]) new_friends rest
    | .None_ =>
      if incremental then
        relationshipLoop incremental (c.remove user_id) initial_friends new_friends rest
      else
        .error ()
    | .other _ => relationshipLoop incremental c initial_friends new_friends rest

/-- `ProtocolClient._relationship_handler` from
`src/steam_network/protocol_client.py`: run the loop, then on a non-incremental
update reset the cache to `initial_friends`.  Returns the cache afterwards and
the `new_friends` list (the ids whose statuses get requested). -/
def relationshipHandler (cache : FriendsCache) (incremental : Bool)
    (friends : List (Nat × EFriendRelationship)) :
    Except Unit (FriendsCache × List Nat) := do
  let (c, initial_friends, new_friends) ←
    relationshipLoop incremental cache [] [] friends
  if incremental then
    return (c, new_friends)
  else
    return (FriendsCache.reset initial_friends, new_friends)

theorem relationshipLoop_full (friends : List (Nat × EFriendRelationship))
    (hnone : ∀ u : Nat, (u, EFriendRelationship.None_) ∉ friends) :
    ∀ (c : FriendsCache) (ini nf : List Nat),
      relationshipLoop false c ini nf friends =
        .ok (c, ini ++ (friends.filter (fun p => p.2 = .Friend)).map Prod.fst, nf) := by
  induction friends with
  | nil => intro c ini nf; simp [relationshipLoop]
  | cons p rest ih =>
    intro c ini nf
    obtain ⟨u, rel⟩ := p
    have hrest : ∀ v : Nat, (v, EFriendRelationship.None_) ∉ rest := by
      intro v hv
      exact hnone v (List.mem_cons_of_mem _ hv)
    cases rel with
    | None_ => exact absurd (List.mem_cons_self _ _) (hnone u)
    | Friend => simp [relationshipLoop, ih hrest]
    | other n => simp [relationshipLoop, ih hrest]

theorem relationshipLoop_incr_total (friends : List (Nat × EFriendRelationship)) :
    ∀ (c : FriendsCache) (ini nf : List Nat),
      ∃ t, relationshipLoop true c ini nf friends = .ok t := by
  induction friends with
  | nil => intro c ini nf; exact ⟨_, rfl⟩
  | cons p rest ih =>
    intro c ini nf
    obtain ⟨u, rel⟩ := p
    cases rel with
    | None_ => simpa [relationshipLoop] using ih _ _ _
    | Friend => simpa [relationshipLoop] using ih _ _ _
    | other n => simpa [relationshipLoop] using ih _ _ _

theorem relationshipLoop_incr_absent (friends : List (Nat × EFriendRelationship))
    (u : Nat) (hkeys : u ∉ friends.map Prod.fst) :
    ∀ (c : FriendsCache) (ini nf : List Nat) (t : FriendsCache × List Nat × List Nat),
      u ∉ c.friends → relationshipLoop true c ini nf friends = .ok t →
      u ∉ t.1.friends := by
  induction friends with
  | nil =>
    intro c ini nf t hu heq
    cases heq
    exact hu
  | cons p rest ih =>
    intro c ini nf t hu heq
    obtain ⟨v, rel⟩ := p
    have hvu : ¬ v = u := by
      intro h
      exact hkeys (by simp [h])
    have hkeys' : u ∉ rest.map Prod.fst := by
      intro h
      exact hkeys (by simp [h])
    cases rel with
    | None_ =>
      refine ih hkeys' _ _ _ _ ?_ (by simpa [relationshipLoop] using heq)
      simp [FriendsCache.remove, List.mem_filter]
      intro h
      exact absurd h hu
    | Friend =>
      refine ih hkeys' _ _ _ _ ?_ (by simpa [relationshipLoop] using heq)
      unfold FriendsCache.add
      split
      · exact hu
      · simp [hu]
        intro h
        exact hvu h.symm
    | other n =>
      exact ih hkeys' _ _ _ _ hu (by simpa [relationshipLoop] using heq)

/-- C5: (full snapshot) a non-incremental update whose snapshot declares no
`None_` relationship replaces the entire prior cache contents with exactly the
users declared `Friend` in that snapshot; (incremental) a user whose
relationship is reported `None_` in an incremental update is absent from the
cache afterwards (dictionary keys are unique, so the user has no later entry). -/
theorem friends_cache_relationship_invariant :
    (∀ (cache : FriendsCache) (friends : List (Nat × EFriendRelationship)),
      (∀ u : Nat, (u, EFriendRelationship.None_) ∉ friends) →
      ∃ nf, relationshipHandler cache false friends =
        .ok (⟨(friends.filter (fun p => p.2 = .Friend)).map Prod.fst⟩, nf)) ∧
    (∀ (cache : FriendsCache) (u : Nat)
        (pre post : List (Nat × EFriendRelationship)),
      u ∉ post.map Prod.fst →
      ∃ c' nf, relationshipHandler cache true (pre ++ (u, .None_) :: post) =
        .ok (c', nf) ∧ u ∉ c'.friends) := by
  constructor
  · intro cache friends hnone
    refine ⟨[], ?_⟩
    simp [relationshipHandler, relationshipLoop_full friends hnone cache [] [],
      FriendsCache.reset]
  · intro cache u pre post hkeys
    suffices h : ∀ c : FriendsCache, ∀ ini nf : List Nat,
        ∃ t, relationshipLoop true c ini nf (pre ++ (u, .None_) :: post) = .ok t ∧
          u ∉ t.1.friends by
      obtain ⟨t, ht, hu⟩ := h cache [] []
      exact ⟨t.1, t.2.2, by simp [relationshipHandler, ht], hu⟩
    induction pre with
    | nil =>
      intro c ini nf
      obtain ⟨t, ht⟩ := relationshipLoop_incr_total post (c.remove u) ini nf
      refine ⟨t, by simpa [relationshipLoop] using ht, ?_⟩
      refine relationshipLoop_incr_absent post u hkeys _ _ _ _ ?_ ht
      simp [FriendsCache.remove, List.mem_filter]
    | cons p rest ih =>
      intro c ini nf
      obtain ⟨v, rel⟩ := p
      cases rel with
      | None_ =>
        obtain ⟨t, ht, hu⟩ := ih (c.remove v) ini nf
        exact ⟨t, by simpa [relationshipLoop] using ht, hu⟩
      | Friend =>
        obtain ⟨t, ht, hu⟩ := ih (c.add v) ini (nf ++ [v])
        exact ⟨t, by simpa [relationshipLoop] using ht, hu⟩
      | other n =>
        obtain ⟨t, ht, hu⟩ := ih c ini nf
        exact ⟨t, by simpa [relationshipLoop] using ht, hu⟩

/-- Witness for C5: a full snapshot `[(1, Friend), (2, other 3)]` resets the
cache to exactly `[1]`, and an incremental update removing user 2 leaves it
absent. -/
theorem friends_cache_relationship_invariant_witness :
    (∃ nf, relationshipHandler ⟨[7]⟩ false [(1, .Friend), (2, .other 3)] =
      .ok (⟨[1]⟩, nf)) ∧
    (∃ c' nf, relationshipHandler ⟨[2]⟩ true [(1, .Friend), (2, .None_)] =
      .ok (c', nf) ∧ 2 ∉ c'.friends) := by
  constructor
  · have h := friends_cache_relationship_invariant.1 ⟨[7]⟩
      [(1, .Friend), (2, .other 3)] (by intro u; simp)
    simpa using h
  · have h := friends_cache_relationship_invariant.2 ⟨[2]⟩ 2
      [(1, .Friend)] [] (by simp)
    simpa using h

/-! ### Games cache and `_license_import_handler` -/

/-- A `SteamLicense` record; only `license.package_id` is inspected by the
handler. -/
structure SteamLicense where
  package_id : Nat
deriving DecidableEq, Repr

/-- Modelled from the spec: `GamesCache` lives in `games_cache.py`, which is
absent from the analysed sources.  Per the spec it tracks the package ids
marked as importing (the storing map) and the app/package associations; a
package is resolved once it has at least one associated app. -/
structure GamesCache where
  packages : List Nat
  apps : List (Nat × Nat)
deriving DecidableEq, Repr

/-- Modelled from the spec: `GamesCache.get_package_ids` returns the
previously seen package-identifier set. -/
def GamesCache.get_package_ids (c : GamesCache) : Finset Nat :=
  c.packages.toFinset

/-- Modelled from the spec: `GamesCache.get_resolved_packages` returns the set
of packages that have at least one associated app. -/
def GamesCache.get_resolved_packages (c : GamesCache) : Finset Nat :=
  (c.apps.map Prod.fst).toFinset

/-- Modelled from the spec: `GamesCache.reset_storing_map` clears all stored
app/package associations (a full resync discards the storing map). -/
def GamesCache.reset_storing_map (_ : GamesCache) : GamesCache :=
  ⟨[], []⟩

/-- Modelled from the spec: `GamesCache.start_packages_import` marks every
package of the given licenses as importing (adds them to the tracked package
set); it does not touch the app associations. -/
def GamesCache.start_packages_import (c : GamesCache) (licenses : List SteamLicense) :
    GamesCache :=
  ⟨c.packages ++ licenses.map SteamLicense.package_id, c.apps⟩

/-- Outcome of one `_license_import_handler` call: the games cache afterwards,
the licenses passed to `get_packages_info` (the requested package infos), and
which branch ran (`didReset` records the full-resync path). -/
structure LicenseImportOutcome where
  cache : GamesCache
  requested : List SteamLicense
  didReset : Bool
deriving DecidableEq, Repr

/-- `ProtocolClient._license_import_handler` from
`src/steam_network/protocol_client.py` (identical in
`src/protocol/protocol_client.py`). -/
def licenseImportHandler (cache : GamesCache) (steam_licenses : List SteamLicense) :
    LicenseImportOutcome :=
  let resolved_packages := cache.get_resolved_packages
  let package_ids : Finset Nat := (steam_licenses.map SteamLicense.package_id).toFinset
  let not_resolved_licenses :=
    steam_licenses.filter (fun l => l.package_id ∉ resolved_packages)
  if package_ids.card < 12000 ∧ package_ids ≠ cache.get_package_ids then
    { cache := cache.reset_storing_map.start_packages_import steam_licenses
      requested := steam_licenses
      didReset := true }
  else
    { cache := cache.start_packages_import not_resolved_licenses
      requested := not_resolved_licenses
      didReset := false }

/-- C3: when the batch's distinct package-identifier set differs from the
previously seen set and has fewer than 12000 elements, the handler takes the
full-resync path: it clears all app/package associations, marks exactly the
batch's packages as importing, and requests package info for the entire batch. -/
theorem license_full_reset (cache : GamesCache) (steam_licenses : List SteamLicense)
    (hdiff : (steam_licenses.map SteamLicense.package_id).toFinset ≠
      cache.get_package_ids)
    (hcard : (steam_licenses.map SteamLicense.package_id).toFinset.card < 12000) :
    (licenseImportHandler cache steam_licenses).didReset = true ∧
    (licenseImportHandler cache steam_licenses).cache.apps = [] ∧
    (licenseImportHandler cache steam_licenses).cache.get_package_ids =
      (steam_licenses.map SteamLicense.package_id).toFinset ∧
    (licenseImportHandler cache steam_licenses).requested = steam_licenses := by
  unfold licenseImportHandler
  rw [if_pos ⟨hcard, hdiff⟩]
  refine ⟨rfl, rfl, ?_, rfl⟩
  simp [GamesCache.get_package_ids, GamesCache.reset_storing_map,
    GamesCache.start_packages_import]

/-- Witness for C3: previously seen set `{1, 2, 3}` with one resolved package,
new batch `{1, 2, 3, 4}` — all four packages are requested and the
associations are cleared. -/
theorem license_full_reset_witness :
    (licenseImportHandler ⟨[1, 2, 3], [(1, 10)]⟩ [⟨1⟩, ⟨2⟩, ⟨3⟩, ⟨4⟩]).didReset = true ∧
    (licenseImportHandler ⟨[1, 2, 3], [(1, 10)]⟩ [⟨1⟩, ⟨2⟩, ⟨3⟩, ⟨4⟩]).cache.apps = [] ∧
    (licenseImportHandler ⟨[1, 2, 3], [(1, 10)]⟩ [⟨1⟩, ⟨2⟩, ⟨3⟩, ⟨4⟩]).cache.get_package_ids =
      ([⟨1⟩, ⟨2⟩, ⟨3⟩, (⟨4⟩ : SteamLicense)].map SteamLicense.package_id).toFinset ∧
    (licenseImportHandler ⟨[1, 2, 3], [(1, 10)]⟩ [⟨1⟩, ⟨2⟩, ⟨3⟩, ⟨4⟩]).requested =
      [⟨1⟩, ⟨2⟩, ⟨3⟩, ⟨4⟩] :=
  license_full_reset ⟨[1, 2, 3], [(1, 10)]⟩ [⟨1⟩, ⟨2⟩, ⟨3⟩, ⟨4⟩]
    (by decide) (by decide)

theorem licenseImportHandler_apps (cache : GamesCache)
    (steam_licenses : List SteamLicense) :
    (licenseImportHandler cache steam_licenses).cache.apps = [] ∨
    (licenseImportHandler cache steam_licenses).cache.apps = cache.apps := by
  unfold licenseImportHandler
  dsimp only
  split
  · exact Or.inl rfl
  · exact Or.inr rfl

/-- C4: delivering the same license batch twice in a row, with no intervening
package-info replies, leaves the resolved-package set unchanged and the second
delivery never takes the full-reset path: it requests package info only for
the packages of the batch that have no associated app yet. -/
theorem license_import_idempotent (cache : GamesCache)
    (steam_licenses : List SteamLicense) :
    ((licenseImportHandler (licenseImportHandler cache steam_licenses).cache
        steam_licenses).didReset = false) ∧
    ((licenseImportHandler (licenseImportHandler cache steam_licenses).cache
        steam_licenses).cache.get_resolved_packages =
      (licenseImportHandler cache steam_licenses).cache.get_resolved_packages) ∧
    ((licenseImportHandler (licenseImportHandler cache steam_licenses).cache
        steam_licenses).requested =
      steam_licenses.filter (fun l => l.package_id ∉
        (licenseImportHandler cache steam_licenses).cache.get_resolved_packages)) := by
  set c1 := (licenseImportHandler cache steam_licenses).cache with hc1
  have hids : ¬ ((steam_licenses.map SteamLicense.package_id).toFinset.card < 12000 ∧
      (steam_licenses.map SteamLicense.package_id).toFinset ≠ c1.get_package_ids) := by
    rintro ⟨hcard, hne⟩
    apply hne
    rw [hc1]
    unfold licenseImportHandler
    dsimp only
    split
    · simp [GamesCache.get_package_ids, GamesCache.reset_storing_map,
        GamesCache.start_packages_import]
    · rename_i hcond
      rw [not_and_or] at hcond
      rcases hcond with hcond | hcond
      · exact absurd hcard hcond
      · rw [not_not] at hcond
        rw [GamesCache.get_package_ids, GamesCache.start_packages_import]
        simp only [List.toFinset_append]
        rw [← GamesCache.get_package_ids, ← hcond]
        have hsub : (List.map SteamLicense.package_id
            (List.filter (fun l => decide (l.package_id ∉ cache.get_resolved_packages))
              steam_licenses)).toFinset ⊆
            (steam_licenses.map SteamLicense.package_id).toFinset := by
          intro x hx
          simp only [List.mem_toFinset, List.mem_map] at hx ⊢
          obtain ⟨l, hl, hlx⟩ := hx
          exact ⟨l, List.mem_of_mem_filter hl, hlx⟩
        rw [Finset.union_eq_left.mpr hsub]
  have hsecond : licenseImportHandler c1 steam_licenses =
      { cache := c1.start_packages_import (steam_licenses.filter
          (fun l => l.package_id ∉ c1.get_resolved_packages))
        requested := steam_licenses.filter
          (fun l => l.package_id ∉ c1.get_resolved_packages)
        didReset := false } := by
    unfold licenseImportHandler
    rw [if_neg hids]
  refine ⟨by rw [hsecond], ?_, by rw [hsecond]⟩
  rw [hsecond]
  simp [GamesCache.get_resolved_packages, GamesCache.start_packages_import]

/-! ### Authentication: guard types, the priority loop and `_login_handler` -/

/-- The guard types of `CAuthentication_AllowedConfirmation`
(`steammessages_auth.pb2`); `other n` stands for any invalid numeric value. -/
inductive EAuthSessionGuardType where
  | k_None
  | k_EmailCode
  | k_DeviceCode
  | k_DeviceConfirmation
  | k_EmailConfirmation
  | k_MachineToken
  | k_LegacyMachineAuth
  | k_Unknown
  | other (n : Nat)
deriving DecidableEq, Repr

/-- `UserActionRequired` from `src/steam_network/protocol_client.py`. -/
inductive UserActionRequired where
  | NoActionRequired
  | EmailTwoFactorInputRequired
  | PhoneTwoFactorInputRequired
  | PhoneTwoFactorConfirmRequired
  | PasswordRequired
  | InvalidAuthData
deriving DecidableEq, Repr

/-- `to_UserAction` from `src/steam_network/protocol_client.py`: the four
known guard types map to their action; everything else is `InvalidAuthData`. -/
def to_UserAction (auth_enum : EAuthSessionGuardType) : UserActionRequired :=
  if auth_enum = .k_None then .NoActionRequired
  else if auth_enum = .k_EmailCode then .EmailTwoFactorInputRequired
  else if auth_enum = .k_DeviceCode then .PhoneTwoFactorInputRequired
  else if auth_enum = .k_DeviceConfirmation then .PhoneTwoFactorConfirmRequired
  else .InvalidAuthData

/-- The `for allowed in message.allowed_confirmations` loop of
`ProtocolClient._login_handler`, with `auth_method` as accumulator (initially
`InvalidAuthData`); a `PhoneTwoFactorInputRequired` action breaks immediately. -/
def resolveAuthLoop : UserActionRequired → List EAuthSessionGuardType →
    UserActionRequired
  | auth_method, [] => auth_method
  | auth_method, allowed :: rest =>
    let action := to_UserAction allowed
    if action = .PhoneTwoFactorInputRequired then
      action
    else if action = .EmailTwoFactorInputRequired then
      resolveAuthLoop action rest
    else if action = .PhoneTwoFactorConfirmRequired ∧
        auth_method ≠ .EmailTwoFactorInputRequired then
      resolveAuthLoop action rest
    else if action = .NoActionRequired ∧ auth_method = .InvalidAuthData then
      resolveAuthLoop action rest
    else
      resolveAuthLoop auth_method rest

/-- The auth method `_login_handler` resolves from the allowed confirmations. -/
def resolveAuthMethod (allowed_confirmations : List EAuthSessionGuardType) :
    UserActionRequired :=
  resolveAuthLoop .InvalidAuthData allowed_confirmations

/-- Spec-side comparator for C1: the highest-priority offered option under the
order DeviceCodeRequired > EmailCodeRequired > DeviceConfirmationRequired >
NoActionRequired (`InvalidAuthData` when nothing recognizable is offered). -/
def highestPriorityChallenge (allowed_confirmations : List EAuthSessionGuardType) :
    UserActionRequired :=
  let actions := allowed_confirmations.map to_UserAction
  if UserActionRequired.PhoneTwoFactorInputRequired ∈ actions then
    .PhoneTwoFactorInputRequired
  else if UserActionRequired.EmailTwoFactorInputRequired ∈ actions then
    .EmailTwoFactorInputRequired
  else if UserActionRequired.PhoneTwoFactorConfirmRequired ∈ actions then
    .PhoneTwoFactorConfirmRequired
  else if UserActionRequired.NoActionRequired ∈ actions then
    .NoActionRequired
  else
    .InvalidAuthData

theorem to_UserAction_cases (g : EAuthSessionGuardType) :
    to_UserAction g = .NoActionRequired ∨
    to_UserAction g = .EmailTwoFactorInputRequired ∨
    to_UserAction g = .PhoneTwoFactorInputRequired ∨
    to_UserAction g = .PhoneTwoFactorConfirmRequired ∨
    to_UserAction g = .InvalidAuthData := by
  unfold to_UserAction
  split_ifs <;> simp

theorem resolveAuthLoop_phone (l : List EAuthSessionGuardType) :
    ∀ a : UserActionRequired,
      UserActionRequired.PhoneTwoFactorInputRequired ∈ l.map to_UserAction →
      resolveAuthLoop a l = .PhoneTwoFactorInputRequired := by
  induction l with
  | nil => intro a h; simp at h
  | cons g rest ih =>
    intro a h
    simp only [List.map_cons, List.mem_cons] at h
    by_cases hg : to_UserAction g = .PhoneTwoFactorInputRequired
    · simp [resolveAuthLoop, hg]
    · have hrest : UserActionRequired.PhoneTwoFactorInputRequired ∈
          rest.map to_UserAction := by
        rcases h with h | h
        · exact absurd h.symm hg
        · exact h
      simp only [resolveAuthLoop]
      split_ifs <;> first
        | exact absurd ‹to_UserAction g = _› hg
        | exact ih _ hrest

theorem resolveAuthLoop_email (l : List EAuthSessionGuardType) :
    ∀ a : UserActionRequired,
      UserActionRequired.PhoneTwoFactorInputRequired ∉ l.map to_UserAction →
      (UserActionRequired.EmailTwoFactorInputRequired ∈ l.map to_UserAction ∨
        a = .EmailTwoFactorInputRequired) →
      resolveAuthLoop a l = .EmailTwoFactorInputRequired := by
  induction l with
  | nil =>
    intro a hnp h
    rcases h with h | h
    · simp at h
    · simpa [resolveAuthLoop] using h
  | cons g rest ih =>
    intro a hnp h
    simp only [List.map_cons, List.mem_cons, not_or] at hnp
    obtain ⟨hnp1, hnp2⟩ := hnp
    rcases to_UserAction_cases g with hg | hg | hg | hg | hg
    · -- g ↦ NoActionRequired: either branch keeps an accumulator that still
      -- satisfies the disjunctive hypothesis
      have h' : UserActionRequired.EmailTwoFactorInputRequired ∈
          rest.map to_UserAction ∨ a = .EmailTwoFactorInputRequired := by
        rcases h with h | h
        · rcases (List.mem_cons.mp h) with h | h
          · rw [hg] at h; exact absurd h.symm (by decide)
          · exact Or.inl h
        · exact Or.inr h
      by_cases ha : a = UserActionRequired.InvalidAuthData
      · have h'' : UserActionRequired.EmailTwoFactorInputRequired ∈
            rest.map to_UserAction := by
          rcases h' with h' | h'
          · exact h'
          · rw [h'] at ha; exact absurd ha (by decide)
        simp only [resolveAuthLoop, hg, ha]
        simpa using ih _ hnp2 (Or.inl h'')
      · simp only [resolveAuthLoop, hg]
        simpa [ha] using ih _ hnp2 h'
    · -- g ↦ EmailTwoFactorInputRequired: the accumulator becomes Email
      simp only [resolveAuthLoop, hg]
      simpa using ih _ hnp2 (Or.inr rfl)
    · exact absurd hg.symm hnp1
    · -- g ↦ PhoneTwoFactorConfirmRequired
      have h' : UserActionRequired.EmailTwoFactorInputRequired ∈
          rest.map to_UserAction ∨ a = .EmailTwoFactorInputRequired := by
        rcases h with h | h
        · rcases (List.mem_cons.mp h) with h | h
          · rw [hg] at h; exact absurd h.symm (by decide)
          · exact Or.inl h
        · exact Or.inr h
      by_cases ha : a = UserActionRequired.EmailTwoFactorInputRequired
      · simp only [resolveAuthLoop, hg]
        simpa [ha] using ih _ hnp2 (Or.inr rfl)
      · have h'' : UserActionRequired.EmailTwoFactorInputRequired ∈
            rest.map to_UserAction := by
          rcases h' with h' | h'
          · exact h'
          · exact absurd h' ha
        simp only [resolveAuthLoop, hg]
        simpa [ha] using ih _ hnp2 (Or.inl h'')
    · -- g ↦ InvalidAuthData: the accumulator is kept
      have h' : UserActionRequired.EmailTwoFactorInputRequired ∈
          rest.map to_UserAction ∨ a = .EmailTwoFactorInputRequired := by
        rcases h with h | h
        · rcases (List.mem_cons.mp h) with h | h
          · rw [hg] at h; exact absurd h.symm (by decide)
          · exact Or.inl h
        · exact Or.inr h
      simp only [resolveAuthLoop, hg]
      simpa using ih _ hnp2 h'

theorem resolveAuthLoop_confirm (l : List EAuthSessionGuardType) :
    ∀ a : UserActionRequired,
      UserActionRequired.PhoneTwoFactorInputRequired ∉ l.map to_UserAction →
      UserActionRequired.EmailTwoFactorInputRequired ∉ l.map to_UserAction →
      a ≠ .EmailTwoFactorInputRequired →
      (UserActionRequired.PhoneTwoFactorConfirmRequired ∈ l.map to_UserAction ∨
        a = .PhoneTwoFactorConfirmRequired) →
      resolveAuthLoop a l = .PhoneTwoFactorConfirmRequired := by
  induction l with
  | nil =>
    intro a _ _ _ h
    rcases h with h | h
    · simp at h
    · simpa [resolveAuthLoop] using h
  | cons g rest ih =>
    intro a hnp hne ha h
    simp only [List.map_cons, List.mem_cons, not_or] at hnp hne
    obtain ⟨hnp1, hnp2⟩ := hnp
    obtain ⟨hne1, hne2⟩ := hne
    rcases to_UserAction_cases g with hg | hg | hg | hg | hg
    · -- g ↦ NoActionRequired
      have h' : UserActionRequired.PhoneTwoFactorConfirmRequired ∈
          rest.map to_UserAction ∨ a = .PhoneTwoFactorConfirmRequired := by
        rcases h with h | h
        · rcases (List.mem_cons.mp h) with h | h
          · rw [hg] at h; exact absurd h.symm (by decide)
          · exact Or.inl h
        · exact Or.inr h
      by_cases hai : a = UserActionRequired.InvalidAuthData
      · have h'' : UserActionRequired.PhoneTwoFactorConfirmRequired ∈
            rest.map to_UserAction := by
          rcases h' with h' | h'
          · exact h'
          · rw [h'] at hai; exact absurd hai (by decide)
        simp only [resolveAuthLoop, hg, hai]
        simpa using ih _ hnp2 hne2 (by decide) (Or.inl h'')
      · simp only [resolveAuthLoop, hg]
        simpa [hai] using ih _ hnp2 hne2 ha h'
    · exact absurd hg.symm hne1
    · exact absurd hg.symm hnp1
    · -- g ↦ PhoneTwoFactorConfirmRequired: the accumulator becomes it
      simp only [resolveAuthLoop, hg]
      simpa [ha] using ih _ hnp2 hne2 (by decide) (Or.inr rfl)
    · -- g ↦ InvalidAuthData
      have h' : UserActionRequired.PhoneTwoFactorConfirmRequired ∈
          rest.map to_UserAction ∨ a = .PhoneTwoFactorConfirmRequired := by
        rcases h with h | h
        · rcases (List.mem_cons.mp h) with h | h
          · rw [hg] at h; exact absurd h.symm (by decide)
          · exact Or.inl h
        · exact Or.inr h
      simp only [resolveAuthLoop, hg]
      simpa using ih _ hnp2 hne2 ha h'

theorem resolveAuthLoop_noaction (l : List EAuthSessionGuardType) :
    ∀ a : UserActionRequired,
      UserActionRequired.PhoneTwoFactorInputRequired ∉ l.map to_UserAction →
      UserActionRequired.EmailTwoFactorInputRequired ∉ l.map to_UserAction →
      UserActionRequired.PhoneTwoFactorConfirmRequired ∉ l.map to_UserAction →
      (a = .InvalidAuthData ∨ a = .NoActionRequired) →
      (UserActionRequired.NoActionRequired ∈ l.map to_UserAction ∨
        a = .NoActionRequired) →
      resolveAuthLoop a l = .NoActionRequired := by
  induction l with
  | nil =>
    intro a _ _ _ _ h
    rcases h with h | h
    · simp at h
    · simpa [resolveAuthLoop] using h
  | cons g rest ih =>
    intro a hnp hne hnc ha h
    simp only [List.map_cons, List.mem_cons, not_or] at hnp hne hnc
    obtain ⟨hnp1, hnp2⟩ := hnp
    obtain ⟨hne1, hne2⟩ := hne
    obtain ⟨hnc1, hnc2⟩ := hnc
    rcases to_UserAction_cases g with hg | hg | hg | hg | hg
    · -- g ↦ NoActionRequired: set if the accumulator is still InvalidAuthData
      rcases ha with hai | hana
      · simp only [resolveAuthLoop, hg, hai]
        simpa using ih _ hnp2 hne2 hnc2 (Or.inr rfl) (Or.inr rfl)
      · simp only [resolveAuthLoop, hg]
        simpa [hana] using ih _ hnp2 hne2 hnc2 (Or.inr rfl) (Or.inr rfl)
    · exact absurd hg.symm hne1
    · exact absurd hg.symm hnp1
    · exact absurd hg.symm hnc1
    · -- g ↦ InvalidAuthData
      have h' : UserActionRequired.NoActionRequired ∈
          rest.map to_UserAction ∨ a = .NoActionRequired := by
        rcases h with h | h
        · rcases (List.mem_cons.mp h) with h | h
          · rw [hg] at h; exact absurd h.symm (by decide)
          · exact Or.inl h
        · exact Or.inr h
      have ha' : a ≠ UserActionRequired.EmailTwoFactorInputRequired := by
        rcases ha with ha | ha <;> simp [ha]
      simp only [resolveAuthLoop, hg]
      simpa using ih _ hnp2 hne2 hnc2 ha h'

theorem resolveAuthLoop_invalid (l : List EAuthSessionGuardType) :
    UserActionRequired.PhoneTwoFactorInputRequired ∉ l.map to_UserAction →
    UserActionRequired.EmailTwoFactorInputRequired ∉ l.map to_UserAction →
    UserActionRequired.PhoneTwoFactorConfirmRequired ∉ l.map to_UserAction →
    UserActionRequired.NoActionRequired ∉ l.map to_UserAction →
    resolveAuthLoop .InvalidAuthData l = .InvalidAuthData := by
  induction l with
  | nil => intro _ _ _ _; rfl
  | cons g rest ih =>
    intro hnp hne hnc hnn
    simp only [List.map_cons, List.mem_cons, not_or] at hnp hne hnc hnn
    rcases to_UserAction_cases g with hg | hg | hg | hg | hg
    · exact absurd hg.symm hnn.1
    · exact absurd hg.symm hne.1
    · exact absurd hg.symm hnp.1
    · exact absurd hg.symm hnc.1
    · simp only [resolveAuthLoop, hg]
      simpa using ih hnp.2 hne.2 hnc.2 hnn.2

theorem resolveAuthMethod_eq_highest (l : List EAuthSessionGuardType) :
    resolveAuthMethod l = highestPriorityChallenge l := by
  unfold resolveAuthMethod highestPriorityChallenge
  by_cases h1 : UserActionRequired.PhoneTwoFactorInputRequired ∈ l.map to_UserAction
  · rw [resolveAuthLoop_phone l _ h1]
    simp [h1]
  · by_cases h2 : UserActionRequired.EmailTwoFactorInputRequired ∈ l.map to_UserAction
    · rw [resolveAuthLoop_email l _ h1 (Or.inl h2)]
      simp [h1, h2]
    · by_cases h3 : UserActionRequired.PhoneTwoFactorConfirmRequired ∈
          l.map to_UserAction
      · rw [resolveAuthLoop_confirm l _ h1 h2 (by decide) (Or.inl h3)]
        simp [h1, h2, h3]
      · by_cases h4 : UserActionRequired.NoActionRequired ∈ l.map to_UserAction
        · rw [resolveAuthLoop_noaction l _ h1 h2 h3 (Or.inl rfl) (Or.inl h4)]
          simp [h1, h2, h3, h4]
        · rw [resolveAuthLoop_invalid l h1 h2 h3 h4]
          simp [h1, h2, h3, h4]

/-- `CAuthentication_BeginAuthSessionViaCredentials_Response`: the fields of
the login reply that `_login_handler` reads.  Each allowed confirmation is
represented by its guard type. -/
structure CAuthentication_BeginAuthSessionViaCredentials_Response where
  client_id : Nat
  steamid : Nat
  request_id : Nat
  interval : Nat
  allowed_confirmations : List EAuthSessionGuardType
  extended_error_message : String
deriving DecidableEq, Repr

/-- `SteamPollingData` from `steam_auth_polling_data.py`, as constructed by
`_login_handler`. -/
structure SteamPollingData where
  client_id : Nat
  steamid : Nat
  request_id : Nat
  interval : Nat
  auth_method : UserActionRequired
  extended_error_message : String
deriving DecidableEq, Repr

/-- A Python exception raised by the handler: either the failing
`assert result != EResult.OK` inside `translate_error`, or the translated
galaxy error. -/
inductive PyError where
  | assertionFailure
  | galaxy (e : GalaxyError)
deriving DecidableEq, Repr

/-- The outcome of `raise translate_error(result)`. -/
def raiseTranslate (result : EResult) : PyError :=
  match translate_error result with
  | .error () => .assertionFailure
  | .ok e => .galaxy e

/-- Observable effects of one `ProtocolClient._login_handler` call from
`src/steam_network/protocol_client.py`: the `user_info_cache.steam_id` value
afterwards, what `set_result` stored on the login future (`none` when no
future was pending), and the exception raised, if any. -/
structure LoginHandlerOutcome where
  steam_id : Nat
  futureResult : Option (EResult × Option SteamPollingData)
  raised : Option PyError
deriving DecidableEq, Repr

/-- `ProtocolClient._login_handler`: on `OK` it refreshes the cached steam id,
resolves the auth method by the priority loop and builds the polling data; it
then resolves the pending login future, or — when none is pending (for example
an unsolicited `TryAnotherCM` reply) — raises the translated error. -/
def _login_handler (login_future_pending : Bool) (cached_steam_id : Nat)
    (result : EResult)
    (message : CAuthentication_BeginAuthSessionViaCredentials_Response) :
    LoginHandlerOutcome :=
  let new_steam_id :=
    if result = .OK then
      if cached_steam_id ≠ message.steamid then message.steamid else cached_steam_id
    else cached_steam_id
  let data : Option SteamPollingData :=
    if result = .OK then
      some ⟨message.client_id, message.steamid, message.request_id,
        message.interval, resolveAuthMethod message.allowed_confirmations,
        message.extended_error_message⟩
    else none
  if login_future_pending then
    { steam_id := new_steam_id, futureResult := some (result, data), raised := none }
  else
    { steam_id := new_steam_id, futureResult := none,
      raised := some (raiseTranslate result) }

/-- C1: on a successful login reply the resolved auth challenge is the
highest-priority offered option under DeviceCodeRequired > EmailCodeRequired >
DeviceConfirmationRequired > NoActionRequired; in particular whenever both
EmailCode and DeviceCode guards are offered (in either order), the resolved
challenge is `PhoneTwoFactorInputRequired` (DeviceCodeRequired). -/
theorem auth_challenge_priority :
    (∀ (cached_steam_id : Nat)
        (message : CAuthentication_BeginAuthSessionViaCredentials_Response),
      ∃ data : SteamPollingData,
        (_login_handler true cached_steam_id .OK message).futureResult =
          some (.OK, some data) ∧
        data.auth_method = highestPriorityChallenge message.allowed_confirmations) ∧
    (∀ l : List EAuthSessionGuardType,
      EAuthSessionGuardType.k_DeviceCode ∈ l →
      resolveAuthMethod l = .PhoneTwoFactorInputRequired) := by
  constructor
  · intro cached_steam_id message
    refine ⟨⟨message.client_id, message.steamid, message.request_id,
      message.interval, resolveAuthMethod message.allowed_confirmations,
      message.extended_error_message⟩, ?_, resolveAuthMethod_eq_highest _⟩
    simp [_login_handler]
  · intro l hmem
    have h : UserActionRequired.PhoneTwoFactorInputRequired ∈ l.map to_UserAction := by
      refine List.mem_map.mpr ⟨.k_DeviceCode, hmem, rfl⟩
    exact resolveAuthLoop_phone l _ h

/-- Witness for C1: with EmailCode and DeviceCode offered simultaneously, in
either order, the resolved challenge is DeviceCodeRequired. -/
theorem auth_challenge_priority_witness :
    resolveAuthMethod [.k_EmailCode, .k_DeviceCode] = .PhoneTwoFactorInputRequired ∧
    resolveAuthMethod [.k_DeviceCode, .k_EmailCode] = .PhoneTwoFactorInputRequired :=
  ⟨auth_challenge_priority.2 [.k_EmailCode, .k_DeviceCode] (by simp),
   auth_challenge_priority.2 [.k_DeviceCode, .k_EmailCode] (by simp)⟩

/-- C8: a login reply arriving with no pending login future resolves no future
and is raised to the caller as the translated protocol error instead of being
silently dropped; in particular an unsolicited `TryAnotherCM` reply raises
`BackendNotAvailable`. -/
theorem unsolicited_login_reply_raised :
    (∀ (cached_steam_id : Nat) (result : EResult)
        (message : CAuthentication_BeginAuthSessionViaCredentials_Response),
      (_login_handler false cached_steam_id result message).futureResult = none ∧
      (_login_handler false cached_steam_id result message).raised =
        some (raiseTranslate result)) ∧
    (∀ (cached_steam_id : Nat)
        (message : CAuthentication_BeginAuthSessionViaCredentials_Response),
      (_login_handler false cached_steam_id .TryAnotherCM message).raised =
        some (.galaxy (.BackendNotAvailable, .TryAnotherCM))) := by
  constructor
  · intro cached_steam_id result message
    exact ⟨rfl, rfl⟩
  · intro cached_steam_id message
    rfl

/-! ### Public-profile checks (`src/user_profile.py`) -/

/-- The typed exceptions of `user_profile.py`, plus the `ValueError` raised
for a falsy steam id. -/
inductive ProfileCheckError where
  | ProfileDoesNotExist
  | ProfileIsNotPublic
  | ParseError
  | NotPublicGameDetailsOrUserHasNoGames
  | ValueError
deriving DecidableEq, Repr

/-- The parts of the parsed XML response `_verify_is_public` inspects:
the text of the `./error` element (`none` when the element is absent or has no
text, as `getattr(error_elm, 'text', None)` yields), and the truthiness of the
`./games/game` element lookup. -/
structure ProfileResponse where
  error_text : Option String
  game_elm_truthy : Bool
deriving DecidableEq, Repr

/-- `UserProfileChecker._verify_is_public`: a non-empty error text selects the
typed exception; otherwise a falsy game element raises, and only a truthy game
element returns `True`.  (`if error_txt:` is false for both `None` and the
empty string.) -/
def _verify_is_public (response : ProfileResponse) : Except ProfileCheckError Bool :=
  let error_txt := response.error_text
  if error_txt ≠ none ∧ error_txt ≠ some "" then
    if error_txt = some "The specified profile could not be found." then
      .error .ProfileDoesNotExist
    else if error_txt = some "This profile is private." then
      .error .ProfileIsNotPublic
    else
      .error .ParseError
  else if ¬ response.game_elm_truthy then
    .error .NotPublicGameDetailsOrUserHasNoGames
  else
    .ok true

/-- `UserProfileChecker.check_is_public_by_custom_url`: fetches the games XML
for the custom url and delegates to `_verify_is_public`. -/
def check_is_public_by_custom_url (response : ProfileResponse) :
    Except ProfileCheckError Bool :=
  _verify_is_public response

/-- `UserProfileChecker.check_is_public_by_steam_id`: raises `ValueError` for
a falsy (zero) steam id before any request; otherwise delegates to
`_verify_is_public` on the fetched response. -/
def check_is_public_by_steam_id (steam_id : Nat) (response : ProfileResponse) :
    Except ProfileCheckError Bool :=
  if steam_id = 0 then .error .ValueError
  else _verify_is_public response

/-- C10: the public-profile checks never return `False` — each call returns
`True` or raises a typed exception, chosen as the source dictates
(`ProfileDoesNotExist` for the not-found text, `ProfileIsNotPublic` for the
private text, `ParseError` for any other non-empty error text,
`NotPublicGameDetailsOrUserHasNoGames` when no truthy game element exists) —
and `check_is_public_by_steam_id` raises `ValueError` on a falsy steam id
regardless of any response. -/
theorem profile_check_no_false :
    (∀ response : ProfileResponse,
      check_is_public_by_custom_url response ≠ .ok false ∧
      (∀ steam_id : Nat, steam_id ≠ 0 →
        check_is_public_by_steam_id steam_id response =
          check_is_public_by_custom_url response)) ∧
    (∀ response : ProfileResponse,
      response.error_text = some "The specified profile could not be found." →
        check_is_public_by_custom_url response = .error .ProfileDoesNotExist) ∧
    (∀ response : ProfileResponse,
      response.error_text = some "This profile is private." →
        check_is_public_by_custom_url response = .error .ProfileIsNotPublic) ∧
    (∀ (response : ProfileResponse) (t : String),
      response.error_text = some t → t ≠ "" →
      t ≠ "The specified profile could not be found." →
      t ≠ "This profile is private." →
        check_is_public_by_custom_url response = .error .ParseError) ∧
    (∀ response : ProfileResponse,
      (response.error_text = none ∨ response.error_text = some "") →
      response.game_elm_truthy = false →
        check_is_public_by_custom_url response =
          .error .NotPublicGameDetailsOrUserHasNoGames) ∧
    (∀ response : ProfileResponse,
      (response.error_text = none ∨ response.error_text = some "") →
      response.game_elm_truthy = true →
        check_is_public_by_custom_url response = .ok true) ∧
    (∀ response : ProfileResponse,
      check_is_public_by_steam_id 0 response = .error .ValueError) := by
  refine ⟨fun response => ⟨?_, fun steam_id h => ?_⟩, fun response h => ?_,
    fun response h => ?_, fun response t h ht h1 h2 => ?_,
    fun response h hg => ?_, fun response h hg => ?_, fun response => ?_⟩
  · unfold check_is_public_by_custom_url _verify_is_public
    dsimp only
    split_ifs <;> simp
  · simp [check_is_public_by_steam_id, check_is_public_by_custom_url, h]
  · simp [check_is_public_by_custom_url, _verify_is_public, h]
  · simp [check_is_public_by_custom_url, _verify_is_public, h]
  · simp only [check_is_public_by_custom_url, _verify_is_public, h]
    rw [if_pos ⟨by simp, by simpa using ht⟩, if_neg (by simpa using h1),
      if_neg (by simpa using h2)]
  · rcases h with h | h <;> simp [check_is_public_by_custom_url, _verify_is_public, h, hg]
  · rcases h with h | h <;> simp [check_is_public_by_custom_url, _verify_is_public, h, hg]
  · rfl

/-- Witness for C10 at concrete responses: a private-profile error text raises
`ProfileIsNotPublic`, and steam id 0 raises `ValueError`. -/
theorem profile_check_no_false_witness :
    check_is_public_by_custom_url ⟨some "This profile is private.", true⟩ =
      .error .ProfileIsNotPublic ∧
    check_is_public_by_steam_id 0 ⟨none, true⟩ = .error .ValueError :=
  ⟨profile_check_no_false.2.2.1 ⟨some "This profile is private.", true⟩ rfl,
   profile_check_no_false.2.2.2.2.2.2 ⟨none, true⟩⟩

end Steam
